import Mathlib

/-!
Shallow embedding of the BkperAuth client (src/packages/auth/src/bkper-auth.ts).

The client owns one mutable field (the in-memory access token), reads and
writes one persisted cookie flag (the session hint), invokes optional
callbacks, and navigates the browser.  We model the mutable state as an
explicit record threaded through each operation, callbacks as optional
behaviours that either return normally or throw a given error message, the
HTTP transport outcome of a refresh call as an inductive value, and each
observable effect (callback invocation, navigation) as an event appended to
a log.  Promise rejection / thrown exceptions are modelled with
`Except String Unit` as the second component of each operation's result.
-/

/-- Default base URL used when the configuration supplies none
(`DEFAULT_BASE_URL` in the source). -/
def DEFAULT_BASE_URL : String := "https://bkper.app"

def AUTH_LOGIN_PATH : String := "/auth/login"

def AUTH_REFRESH_PATH : String := "/auth/refresh"

def AUTH_LOGOUT_PATH : String := "/auth/logout"

/-- Behaviour of a configured callback: it either returns normally or throws
an error with the given message.  Used to study exception propagation. -/
inductive CbSpec where
  | normal : CbSpec
  | throws : String → CbSpec
deriving DecidableEq, Repr

/-- Configuration object (`BkperAuthConfig`): optional base URL, the six
optional callbacks, and the optional extra-query-parameter provider, whose
output we model as the association list it returns. -/
structure BkperAuthConfig where
  baseUrl : Option String
  onLoginSuccess : Option CbSpec
  onLoginRequired : Option CbSpec
  onLogout : Option CbSpec
  onTokenRefresh : Option CbSpec
  onError : Option CbSpec
  getAdditionalAuthParams : Option (List (String × String))
deriving DecidableEq, Repr

/-- Result of `response.json()` on the refresh response: either the parse
rejects, or it yields an object whose `accessToken` field is a string or
absent. -/
inductive JsonResult where
  | parseError : String → JsonResult
  | parsed : Option String → JsonResult
deriving DecidableEq, Repr

/-- Outcome of the `fetch` performed by `refresh()`: an HTTP response with a
status, a status text and a JSON body, or a network-level rejection. -/
inductive FetchOutcome where
  | response : Nat → String → JsonResult → FetchOutcome
  | netError : String → FetchOutcome
deriving DecidableEq, Repr

/-- Observable effect: a callback invocation or a browser navigation. -/
inductive Event where
  | tokenRefresh : String → Event
  | loginSuccess : Event
  | loginRequired : Event
  | errorCb : String → Event
  | logoutCb : Event
  | navigate : String → Event
deriving DecidableEq, Repr

/-- Mutable state of the client plus its observable environment: the
in-memory `accessToken`, the persisted `already-logged` cookie flag, and the
chronological log of events. -/
structure AuthState where
  accessToken : Option String
  alreadyLoggedCookie : Bool
  events : List Event
deriving DecidableEq, Repr

/-- Fresh state: token absent, cookie not set, no events. -/
def freshState : AuthState :=
  { accessToken := none, alreadyLoggedCookie := false, events := [] }

/-- JavaScript truthiness of a possibly-absent string: `undefined` and the
empty string are falsy. -/
def truthy : Option String → Bool
  | none => false
  | some s => !(s == "")

/-- The effective base URL: `config.baseUrl || DEFAULT_BASE_URL` (note that
an empty explicit string also falls back, as `||` tests truthiness). -/
def baseUrlOf (cfg : BkperAuthConfig) : String :=
  match cfg.baseUrl with
  | some b => if b == "" then DEFAULT_BASE_URL else b
  | none => DEFAULT_BASE_URL

/-- Invoking a callback logs its event; if the callback throws, the error is
reported after the event is logged (the callback did run). -/
def invokeCb (cb : CbSpec) (ev : Event) (s : AuthState) :
    AuthState × Except String Unit :=
  match cb with
  | CbSpec.normal => ({ s with events := s.events ++ [ev] }, Except.ok ())
  | CbSpec.throws e => ({ s with events := s.events ++ [ev] }, Except.error e)

/-- True when the optional callback cannot throw (absent or normal). -/
def cbSafeB : Option CbSpec → Bool
  | some (CbSpec.throws _) => false
  | _ => true

/-- UTF-8 byte sequence of a Unicode code point, as natural numbers. -/
def utf8Bytes (n : Nat) : List Nat :=
  if n < 0x80 then [n]
  else if n < 0x800 then [0xC0 + n / 0x40, 0x80 + n % 0x40]
  else if n < 0x10000 then
    [0xE0 + n / 0x1000, 0x80 + (n / 0x40) % 0x40, 0x80 + n % 0x40]
  else
    [0xF0 + n / 0x40000, 0x80 + (n / 0x1000) % 0x40,
      0x80 + (n / 0x40) % 0x40, 0x80 + n % 0x40]

/-- Upper-case hexadecimal digit for a value below 16. -/
def hexDigit (n : Nat) : Char :=
  ("0123456789ABCDEF").toList.getD n ('0')

/-- Percent-encoding of one byte, e.g. 32 becomes "%20". -/
def percentByte (b : Nat) : String :=
  String.mk [('%'), hexDigit (b / 16), hexDigit (b % 16)]

/-- Percent-encoding of every UTF-8 byte of a character. -/
def percentEncodeChar (c : Char) : String :=
  String.join ((utf8Bytes c.toNat).map percentByte)

/-- Characters left intact by JavaScript `encodeURIComponent`:
A-Z a-z 0-9 - _ . ! ~ * ' ( ). -/
def uriComponentSafe (c : Char) : Bool :=
  c.isAlphanum || c == '-' || c == '_' || c == '.' || c == '!' ||
    c == '~' || c == '*' || c.toNat == 39 || c == '(' || c == ')'

/-- JavaScript `encodeURIComponent`: safe characters kept, every other
character replaced by the percent-encoding of its UTF-8 bytes. -/
def encodeURIComponent (s : String) : String :=
  String.join (s.toList.map (fun c =>
    if uriComponentSafe c then String.singleton c else percentEncodeChar c))

/-- Characters left intact by `URLSearchParams` serialization
(application/x-www-form-urlencoded): A-Z a-z 0-9 * - . _ ; the space becomes
a plus sign. -/
def formSafe (c : Char) : Bool :=
  c.isAlphanum || c == '*' || c == '-' || c == '.' || c == '_'

/-- application/x-www-form-urlencoded escaping of a string, as performed by
`URLSearchParams.toString()` on each key and value. -/
def formUrlEncode (s : String) : String :=
  String.join (s.toList.map (fun c =>
    if formSafe c then String.singleton c
    else if c == ' ' then String.singleton ('+')
    else percentEncodeChar c))

/-- Serialization of `new URLSearchParams(params).toString()`:
`key=value` pairs joined by ampersands, keys and values both escaped. -/
def searchParamsToString (ps : List (String × String)) : String :=
  String.intercalate ("&")
    (ps.map (fun p => formUrlEncode p.1 ++ "=" ++ formUrlEncode p.2))

/-- `getLoginUrl`: base URL plus the login path, a `returnUrl` query
parameter holding the URI-encoded current location, then one
`&key=value` pair per provider entry with only the value URI-encoded. -/
def getLoginUrl (cfg : BkperAuthConfig) (href : String) : String :=
  let u := baseUrlOf cfg ++ AUTH_LOGIN_PATH ++ "?returnUrl=" ++
    encodeURIComponent href
  match cfg.getAdditionalAuthParams with
  | some ps =>
    u ++ String.join (ps.map (fun p =>
      "&" ++ p.1 ++ "=" ++ encodeURIComponent p.2))
  | none => u

/-- `getRefreshUrl`: base URL plus the refresh path, plus a question mark and
the `URLSearchParams` serialization of the provider output when that
serialization is nonempty. -/
def getRefreshUrl (cfg : BkperAuthConfig) : String :=
  let u := baseUrlOf cfg ++ AUTH_REFRESH_PATH
  match cfg.getAdditionalAuthParams with
  | some ps =>
    let q := searchParamsToString ps
    if q == "" then u else u ++ "?" ++ q
  | none => u

/-- `getLogoutUrl`: base URL plus the logout path, never any parameters. -/
def getLogoutUrl (cfg : BkperAuthConfig) : String :=
  baseUrlOf cfg ++ AUTH_LOGOUT_PATH

/-- `getAccessToken()`: pure read of the in-memory token. -/
def getAccessToken (s : AuthState) : Option String :=
  s.accessToken

/-- `hasLoggedInBefore()`: pure read of the persisted cookie flag
(`Cookies.get(ALREADY_LOGGED_COOKIE) != null`). -/
def hasLoggedInBefore (s : AuthState) : Bool :=
  s.alreadyLoggedCookie

/-- `refresh()` given the outcome of its fetch.  On a 200 response the JSON
body is parsed (a parse rejection falls to the catch clause), the
`accessToken` field is stored, the cookie flag is set, and `onTokenRefresh`
is invoked when configured and the token is truthy; a throwing callback
rejects the chain, so the catch clause clears the token and re-rejects.
On 401 the token is cleared and the call resolves.  On any other status the
call rejects with the status text; the catch clause clears the token and
re-rejects.  A network error likewise reaches the catch clause: token
cleared, error re-rejected. -/
def refresh (cfg : BkperAuthConfig) (o : FetchOutcome) (s : AuthState) :
    AuthState × Except String Unit :=
  match o with
  | FetchOutcome.netError e =>
    ({ s with accessToken := none }, Except.error e)
  | FetchOutcome.response status statusText json =>
    if status == 200 then
      match json with
      | JsonResult.parseError e =>
        ({ s with accessToken := none }, Except.error e)
      | JsonResult.parsed tokOpt =>
        let s1 : AuthState :=
          { s with accessToken := tokOpt, alreadyLoggedCookie := true }
        match cfg.onTokenRefresh, tokOpt with
        | some cb, some t =>
          if t == "" then (s1, Except.ok ())
          else
            match invokeCb cb (Event.tokenRefresh t) s1 with
            | (s2, Except.ok _) => (s2, Except.ok ())
            | (s2, Except.error e) =>
              ({ s2 with accessToken := none }, Except.error e)
        | _, _ => (s1, Except.ok ())
    else if status == 401 then
      ({ s with accessToken := none }, Except.ok ())
    else
      ({ s with accessToken := none }, Except.error statusText)

/-- `checkAccessToken()`: truthy token invokes `onLoginSuccess` when
configured, otherwise `onLoginRequired` when configured. -/
def checkAccessToken (cfg : BkperAuthConfig) (s : AuthState) :
    AuthState × Except String Unit :=
  if truthy s.accessToken then
    match cfg.onLoginSuccess with
    | some cb => invokeCb cb Event.loginSuccess s
    | none => (s, Except.ok ())
  else
    match cfg.onLoginRequired with
    | some cb => invokeCb cb Event.loginRequired s
    | none => (s, Except.ok ())

/-- The catch handler of `init()`: invoke `onError` with the error when
configured (a throwing `onError` propagates), otherwise drop it. -/
def handleInitError (cfg : BkperAuthConfig) (e : String) (s : AuthState) :
    AuthState × Except String Unit :=
  match cfg.onError with
  | some cb => invokeCb cb (Event.errorCb e) s
  | none => (s, Except.ok ())

/-- `init()`: awaits `refresh()` then runs `checkAccessToken()`, both inside
a try block whose catch routes any error to `onError`. -/
def init (cfg : BkperAuthConfig) (o : FetchOutcome) (s : AuthState) :
    AuthState × Except String Unit :=
  match refresh cfg o s with
  | (s1, Except.ok _) =>
    match checkAccessToken cfg s1 with
    | (s2, Except.ok _) => (s2, Except.ok ())
    | (s2, Except.error e) => handleInitError cfg e s2
  | (s1, Except.error e) => handleInitError cfg e s1

/-- `login()`: computes the login URL from the current location and
navigates to it; no state change, no callback. -/
def login (cfg : BkperAuthConfig) (href : String) (s : AuthState) :
    AuthState × Except String Unit :=
  ({ s with events := s.events ++ [Event.navigate (getLoginUrl cfg href)] },
    Except.ok ())

/-- `logout()`: invokes `onLogout` when configured (a throw prevents the
navigation), then navigates to the logout URL. -/
def logout (cfg : BkperAuthConfig) (s : AuthState) :
    AuthState × Except String Unit :=
  match cfg.onLogout with
  | some cb =>
    match invokeCb cb Event.logoutCb s with
    | (s1, Except.ok _) =>
      ({ s1 with events := s1.events ++ [Event.navigate (getLogoutUrl cfg)] },
        Except.ok ())
    | (s1, Except.error e) => (s1, Except.error e)
  | none =>
    ({ s with events := s.events ++ [Event.navigate (getLogoutUrl cfg)] },
      Except.ok ())

/-- An operation of the client together with the transport outcome it
observes, for reasoning over call sequences. -/
inductive Op where
  | refreshOp : FetchOutcome → Op
  | initOp : FetchOutcome → Op
  | loginOp : String → Op
  | logoutOp : Op
deriving DecidableEq, Repr

/-- State after one operation (the resolved-or-rejected result is dropped;
the state it leaves behind is kept either way). -/
def step (cfg : BkperAuthConfig) (s : AuthState) : Op → AuthState
  | Op.refreshOp o => (refresh cfg o s).1
  | Op.initOp o => (init cfg o s).1
  | Op.loginOp href => (login cfg href s).1
  | Op.logoutOp => (logout cfg s).1

/-- State after a sequence of operations. -/
def run (cfg : BkperAuthConfig) (s : AuthState) : List Op → AuthState
  | [] => s
  | op :: ops => run cfg (step cfg s op) ops

/-- Whether the fetch outcome is a response with status 200 or 401. -/
def statusIs200or401 : FetchOutcome → Bool
  | FetchOutcome.response st _ _ => st == 200 || st == 401
  | FetchOutcome.netError _ => false

/-- Whether the fetch outcome is a response with status 200. -/
def statusIs200 : FetchOutcome → Bool
  | FetchOutcome.response st _ _ => st == 200
  | FetchOutcome.netError _ => false

/-- Whether the JSON body parse succeeds whenever it is attempted (it is
attempted only on a 200 response). -/
def parseOkB : FetchOutcome → Bool
  | FetchOutcome.response st _ (JsonResult.parseError _) => !(st == 200)
  | _ => true

/-- Whether the fetch outcome carries a JSON body that parses. -/
def bodyParsed : FetchOutcome → Bool
  | FetchOutcome.response _ _ (JsonResult.parsed _) => true
  | _ => false

/-- Whether an operation is a refresh (direct or via init) whose fetch
returned HTTP 200 with a body that parsed — exactly the executions that
reach the cookie-setting line. -/
def sets200 : Op → Bool
  | Op.refreshOp o => statusIs200 o && bodyParsed o
  | Op.initOp o => statusIs200 o && bodyParsed o
  | _ => false

example : encodeURIComponent ("http://localhost:3000/app") =
    "http%3A%2F%2Flocalhost%3A3000%2Fapp" := by decide

example : formUrlEncode ("a b+c") = "a+b%2Bc" := by decide

example : searchParamsToString [(("tenant"), ("acme"))] = "tenant=acme" := by
  decide

/-- C1: when the refresh fetch returns HTTP 200 with a JSON body carrying a
nonempty `accessToken` and the configured `onTokenRefresh` callback does not
itself throw, `refresh()` resolves normally, `getAccessToken()` returns that
token, the session-hint flag is set (`hasLoggedInBefore()` is true), and the
`onTokenRefresh` callback, when configured, is invoked exactly once with the
token (and not at all otherwise). -/
theorem refresh_200_stores_token (cfg : BkperAuthConfig) (s : AuthState)
    (txt tok : String) (htok : tok ≠ "")
    (hsafe : cbSafeB cfg.onTokenRefresh = true) :
    (refresh cfg (FetchOutcome.response 200 txt
        (JsonResult.parsed (some tok))) s).2 = Except.ok () ∧
    getAccessToken (refresh cfg (FetchOutcome.response 200 txt
        (JsonResult.parsed (some tok))) s).1 = some tok ∧
    hasLoggedInBefore (refresh cfg (FetchOutcome.response 200 txt
        (JsonResult.parsed (some tok))) s).1 = true ∧
    (refresh cfg (FetchOutcome.response 200 txt
        (JsonResult.parsed (some tok))) s).1.events =
      s.events ++ (match cfg.onTokenRefresh with
        | some _ => [Event.tokenRefresh tok]
        | none => []) := by
  have htok' : (tok == "") = false := by
    simpa using htok
  cases hc : cfg.onTokenRefresh with
  | none =>
    simp [refresh, getAccessToken, hasLoggedInBefore, hc]
  | some cb =>
    cases cb with
    | normal =>
      simp [refresh, getAccessToken, hasLoggedInBefore, invokeCb, hc, htok']
    | throws e =>
      rw [hc] at hsafe
      simp [cbSafeB] at hsafe

/-- Witness for C1 at a concrete configuration and the token "abc123". -/
theorem refresh_200_stores_token_witness :
    ("abc123" ≠ "") ∧
    (cbSafeB (BkperAuthConfig.mk none none none none
        (some CbSpec.normal) none none).onTokenRefresh = true) ∧
    ((refresh (BkperAuthConfig.mk none none none none
        (some CbSpec.normal) none none)
      (FetchOutcome.response 200 ("OK")
        (JsonResult.parsed (some ("abc123")))) freshState).2 = Except.ok () ∧
    getAccessToken (refresh (BkperAuthConfig.mk none none none none
        (some CbSpec.normal) none none)
      (FetchOutcome.response 200 ("OK")
        (JsonResult.parsed (some ("abc123")))) freshState).1 =
      some ("abc123") ∧
    hasLoggedInBefore (refresh (BkperAuthConfig.mk none none none none
        (some CbSpec.normal) none none)
      (FetchOutcome.response 200 ("OK")
        (JsonResult.parsed (some ("abc123")))) freshState).1 = true ∧
    (refresh (BkperAuthConfig.mk none none none none
        (some CbSpec.normal) none none)
      (FetchOutcome.response 200 ("OK")
        (JsonResult.parsed (some ("abc123")))) freshState).1.events =
      freshState.events ++
        (match (BkperAuthConfig.mk none none none none
            (some CbSpec.normal) none none).onTokenRefresh with
          | some _ => [Event.tokenRefresh ("abc123")]
          | none => [])) :=
  ⟨by decide, by decide,
    refresh_200_stores_token _ freshState ("OK") ("abc123")
      (by decide) (by decide)⟩

/-- Counterexample to C2: a 200 response whose JSON body fails to parse
makes `refresh()` reject (with the parse error), although the response
status is 200 — so `refresh()` does not resolve normally exactly when the
status is 200 or 401. -/
theorem refresh_parse_failure_cex :
    (refresh (BkperAuthConfig.mk none none none none none none none)
      (FetchOutcome.response 200 ("OK")
        (JsonResult.parseError ("Unexpected end of JSON input")))
      freshState).2 =
      Except.error ("Unexpected end of JSON input") ∧
    statusIs200or401 (FetchOutcome.response 200 ("OK")
      (JsonResult.parseError ("Unexpected end of JSON input"))) = true ∧
    getAccessToken (refresh (BkperAuthConfig.mk none none none none none
        none none)
      (FetchOutcome.response 200 ("OK")
        (JsonResult.parseError ("Unexpected end of JSON input")))
      freshState).1 = none :=
  ⟨rfl, rfl, rfl⟩

/-- C2 (amended): with a non-throwing `onTokenRefresh`, `refresh()`
resolves normally exactly when the response has status 401 or status 200
with a body that parses; on 401 it clears the token, resolves, and invokes
no callback; on any other status it rejects with the status text; a network
error propagates to the caller; a parse failure on a 200 response likewise
propagates its error to the caller; and whenever the call did not complete
the HTTP 200 branch with a parsed body (401, other status, network error,
or parse failure), `getAccessToken()` is absent afterwards. -/
theorem refresh_error_contract (cfg : BkperAuthConfig) (s : AuthState)
    (o : FetchOutcome) (hsafe : cbSafeB cfg.onTokenRefresh = true) :
    (((refresh cfg o s).2 = Except.ok ()) ↔
      (statusIs200or401 o && parseOkB o) = true) ∧
    (∀ txt j, o = FetchOutcome.response 401 txt j →
      getAccessToken (refresh cfg o s).1 = none ∧
      (refresh cfg o s).1.events = s.events) ∧
    (∀ st txt j, o = FetchOutcome.response st txt j → st ≠ 200 → st ≠ 401 →
      (refresh cfg o s).2 = Except.error txt) ∧
    (∀ e, o = FetchOutcome.netError e →
      (refresh cfg o s).2 = Except.error e) ∧
    (∀ txt e, o = FetchOutcome.response 200 txt (JsonResult.parseError e) →
      (refresh cfg o s).2 = Except.error e) ∧
    ((statusIs200 o && bodyParsed o) = false →
      getAccessToken (refresh cfg o s).1 = none) := by
  cases o with
  | netError e =>
    simp [refresh, statusIs200or401, statusIs200, bodyParsed, parseOkB,
      getAccessToken]
  | response st txt j =>
    by_cases h200 : st = 200
    · subst h200
      cases j with
      | parseError e =>
        simp [refresh, statusIs200or401, statusIs200, bodyParsed,
          parseOkB, getAccessToken]
      | parsed tokOpt =>
        cases hc : cfg.onTokenRefresh with
        | none =>
          simp [refresh, statusIs200or401, statusIs200, bodyParsed,
            parseOkB, getAccessToken, hc]
        | some cb =>
          cases cb with
          | normal =>
            cases tokOpt with
            | none =>
              simp [refresh, statusIs200or401, statusIs200, bodyParsed,
                parseOkB, getAccessToken, hc]
            | some t =>
              by_cases ht : t = ""
              · subst ht
                simp [refresh, statusIs200or401, statusIs200, bodyParsed,
                  parseOkB, getAccessToken, hc]
              · have ht' : (t == "") = false := by simpa using ht
                simp [refresh, statusIs200or401, statusIs200, bodyParsed,
                  parseOkB, getAccessToken, invokeCb, hc, ht']
          | throws e =>
            rw [hc] at hsafe
            simp [cbSafeB] at hsafe
    · by_cases h401 : st = 401
      · subst h401
        cases j <;>
          simp [refresh, statusIs200or401, statusIs200, bodyParsed,
            parseOkB, getAccessToken]
      · have h200' : (st == 200) = false := by simpa using h200
        have h401' : (st == 401) = false := by simpa using h401
        cases j <;>
          simp [refresh, statusIs200or401, statusIs200, bodyParsed,
            parseOkB, getAccessToken, h200', h401', h200, h401]

/-- Witness for the amended C2 at a concrete 200 response with a body that
fails to parse. -/
theorem refresh_error_contract_witness :
    (cbSafeB (BkperAuthConfig.mk none none none none none none
        none).onTokenRefresh = true) ∧
    ((((refresh (BkperAuthConfig.mk none none none none none none none)
        (FetchOutcome.response 200 ("OK")
          (JsonResult.parseError ("bad json"))) freshState).2 =
        Except.ok ()) ↔
      (statusIs200or401 (FetchOutcome.response 200 ("OK")
          (JsonResult.parseError ("bad json"))) &&
        parseOkB (FetchOutcome.response 200 ("OK")
          (JsonResult.parseError ("bad json")))) = true) ∧
    (∀ txt j, FetchOutcome.response 200 ("OK")
        (JsonResult.parseError ("bad json")) =
          FetchOutcome.response 401 txt j →
      getAccessToken (refresh (BkperAuthConfig.mk none none none none none
          none none)
        (FetchOutcome.response 200 ("OK")
          (JsonResult.parseError ("bad json"))) freshState).1 = none ∧
      (refresh (BkperAuthConfig.mk none none none none none none none)
        (FetchOutcome.response 200 ("OK")
          (JsonResult.parseError ("bad json"))) freshState).1.events =
        freshState.events) ∧
    (∀ st txt j, FetchOutcome.response 200 ("OK")
        (JsonResult.parseError ("bad json")) =
          FetchOutcome.response st txt j →
      st ≠ 200 → st ≠ 401 →
      (refresh (BkperAuthConfig.mk none none none none none none none)
        (FetchOutcome.response 200 ("OK")
          (JsonResult.parseError ("bad json"))) freshState).2 =
        Except.error txt) ∧
    (∀ e, FetchOutcome.response 200 ("OK")
        (JsonResult.parseError ("bad json")) = FetchOutcome.netError e →
      (refresh (BkperAuthConfig.mk none none none none none none none)
        (FetchOutcome.response 200 ("OK")
          (JsonResult.parseError ("bad json"))) freshState).2 =
        Except.error e) ∧
    (∀ txt e, FetchOutcome.response 200 ("OK")
        (JsonResult.parseError ("bad json")) =
          FetchOutcome.response 200 txt (JsonResult.parseError e) →
      (refresh (BkperAuthConfig.mk none none none none none none none)
        (FetchOutcome.response 200 ("OK")
          (JsonResult.parseError ("bad json"))) freshState).2 =
        Except.error e) ∧
    ((statusIs200 (FetchOutcome.response 200 ("OK")
        (JsonResult.parseError ("bad json"))) &&
      bodyParsed (FetchOutcome.response 200 ("OK")
        (JsonResult.parseError ("bad json")))) = false →
      getAccessToken (refresh (BkperAuthConfig.mk none none none none none
          none none)
        (FetchOutcome.response 200 ("OK")
          (JsonResult.parseError ("bad json"))) freshState).1 = none)) :=
  ⟨by decide,
    refresh_error_contract (BkperAuthConfig.mk none none none none none
        none none) freshState
      (FetchOutcome.response 200 ("OK")
        (JsonResult.parseError ("bad json"))) (by decide)⟩

/-- Helper: `refresh()` only ever appends token-refreshed events to the log,
whatever the outcome. -/
theorem refresh_events_append (cfg : BkperAuthConfig) (o : FetchOutcome)
    (s : AuthState) :
    ∃ l : List Event, (refresh cfg o s).1.events = s.events ++ l ∧
      ∀ ev ∈ l, ∃ t, ev = Event.tokenRefresh t := by
  cases o with
  | netError e =>
    exact ⟨[], by simp [refresh], by simp⟩
  | response st txt j =>
    by_cases h200 : st = 200
    · subst h200
      cases j with
      | parseError e =>
        exact ⟨[], by simp [refresh], by simp⟩
      | parsed tokOpt =>
        cases hc : cfg.onTokenRefresh with
        | none =>
          exact ⟨[], by simp [refresh, hc], by simp⟩
        | some cb =>
          cases tokOpt with
          | none =>
            exact ⟨[], by simp [refresh, hc], by simp⟩
          | some t =>
            by_cases ht : t = ""
            · subst ht
              exact ⟨[], by simp [refresh, hc], by simp⟩
            · have ht' : (t == "") = false := by simpa using ht
              refine ⟨[Event.tokenRefresh t], ?_, by simp⟩
              cases cb with
              | normal => simp [refresh, hc, ht', invokeCb]
              | throws e => simp [refresh, hc, ht', invokeCb]
    · have h200' : (st == 200) = false := by simpa using h200
      by_cases h401 : st = 401
      · subst h401
        exact ⟨[], by simp [refresh, h200'], by simp⟩
      · have h401' : (st == 401) = false := by simpa using h401
        exact ⟨[], by simp [refresh, h200', h401'], by simp⟩

/-- C3: with a non-throwing `onError`, `init()` resolves for every fetch
outcome; and whenever the inner `refresh()` rejected with some error, the
only event `init()` adds beyond those of `refresh()` is an `onError`
invocation with that error when the callback is configured (nothing when it
is not), and in particular neither login notification is invoked on the
error path. -/
theorem init_never_throws (cfg : BkperAuthConfig) (s : AuthState)
    (o : FetchOutcome) (hsafeErr : cbSafeB cfg.onError = true) :
    (init cfg o s).2 = Except.ok () ∧
    (∀ e, (refresh cfg o s).2 = Except.error e →
      (init cfg o s).1.events = (refresh cfg o s).1.events ++
        (match cfg.onError with
          | some _ => [Event.errorCb e]
          | none => [])) ∧
    (∀ e, (refresh cfg o s).2 = Except.error e →
      Event.loginSuccess ∉ (init cfg o s).1.events.drop s.events.length ∧
      Event.loginRequired ∉ (init cfg o s).1.events.drop s.events.length) := by
  have hhe : ∀ e s', (handleInitError cfg e s').2 = Except.ok () ∧
      (handleInitError cfg e s').1.events = s'.events ++
        (match cfg.onError with
          | some _ => [Event.errorCb e]
          | none => []) := by
    intro e s'
    cases hc : cfg.onError with
    | none => simp [handleInitError, hc]
    | some cb =>
      cases cb with
      | normal => simp [handleInitError, invokeCb, hc]
      | throws e2 =>
        rw [hc] at hsafeErr
        simp [cbSafeB] at hsafeErr
  obtain ⟨l, hl, hlev⟩ := refresh_events_append cfg o s
  rcases hr : refresh cfg o s with ⟨s1, r1⟩
  rw [hr] at hl
  simp only at hl
  cases r1 with
  | error e =>
    have hev : (init cfg o s).1.events = s1.events ++
        (match cfg.onError with
          | some _ => [Event.errorCb e]
          | none => []) := by
      simp only [init, hr]
      exact (hhe e s1).2
    refine ⟨?_, ?_, ?_⟩
    · simp only [init, hr]
      exact (hhe e s1).1
    · intro e2 he2
      obtain rfl : e = e2 := by simpa using he2
      simpa using hev
    · intro e2 he2
      obtain rfl : e = e2 := by simpa using he2
      rw [hev, hl, List.append_assoc, List.drop_left]
      constructor
      · intro hmem
        rcases List.mem_append.mp hmem with hm | hm
        · obtain ⟨t, ht⟩ := hlev _ hm
          cases ht
        · cases hc : cfg.onError <;> rw [hc] at hm <;> simp at hm
      · intro hmem
        rcases List.mem_append.mp hmem with hm | hm
        · obtain ⟨t, ht⟩ := hlev _ hm
          cases ht
        · cases hc : cfg.onError <;> rw [hc] at hm <;> simp at hm
  | ok u =>
    cases u
    refine ⟨?_, ?_, ?_⟩
    · rcases hck : checkAccessToken cfg s1 with ⟨s2, r2⟩
      cases r2 with
      | ok v => simp [init, hr, hck]
      | error e => simp [init, hr, hck, (hhe e s2).1]
    · intro e he
      simp at he
    · intro e he
      simp at he

/-- Witness for C3 with a 500 response and a configured error callback. -/
theorem init_never_throws_witness :
    (cbSafeB (BkperAuthConfig.mk none (some CbSpec.normal)
        (some CbSpec.normal) none none (some CbSpec.normal) none).onError =
      true) ∧
    ((init (BkperAuthConfig.mk none (some CbSpec.normal)
        (some CbSpec.normal) none none (some CbSpec.normal) none)
      (FetchOutcome.response 500 ("Server Error")
        (JsonResult.parsed none)) freshState).2 = Except.ok () ∧
    (∀ e, (refresh (BkperAuthConfig.mk none (some CbSpec.normal)
          (some CbSpec.normal) none none (some CbSpec.normal) none)
        (FetchOutcome.response 500 ("Server Error")
          (JsonResult.parsed none)) freshState).2 = Except.error e →
      (init (BkperAuthConfig.mk none (some CbSpec.normal)
          (some CbSpec.normal) none none (some CbSpec.normal) none)
        (FetchOutcome.response 500 ("Server Error")
          (JsonResult.parsed none)) freshState).1.events =
        (refresh (BkperAuthConfig.mk none (some CbSpec.normal)
            (some CbSpec.normal) none none (some CbSpec.normal) none)
          (FetchOutcome.response 500 ("Server Error")
            (JsonResult.parsed none)) freshState).1.events ++
          (match (BkperAuthConfig.mk none (some CbSpec.normal)
              (some CbSpec.normal) none none (some CbSpec.normal)
              none).onError with
            | some _ => [Event.errorCb e]
            | none => [])) ∧
    (∀ e, (refresh (BkperAuthConfig.mk none (some CbSpec.normal)
          (some CbSpec.normal) none none (some CbSpec.normal) none)
        (FetchOutcome.response 500 ("Server Error")
          (JsonResult.parsed none)) freshState).2 = Except.error e →
      Event.loginSuccess ∉ ((init (BkperAuthConfig.mk none
          (some CbSpec.normal) (some CbSpec.normal) none none
          (some CbSpec.normal) none)
        (FetchOutcome.response 500 ("Server Error")
          (JsonResult.parsed none)) freshState).1.events.drop
            freshState.events.length) ∧
      Event.loginRequired ∉ ((init (BkperAuthConfig.mk none
          (some CbSpec.normal) (some CbSpec.normal) none none
          (some CbSpec.normal) none)
        (FetchOutcome.response 500 ("Server Error")
          (JsonResult.parsed none)) freshState).1.events.drop
            freshState.events.length))) :=
  ⟨by decide,
    init_never_throws (BkperAuthConfig.mk none (some CbSpec.normal)
        (some CbSpec.normal) none none (some CbSpec.normal) none)
      freshState
      (FetchOutcome.response 500 ("Server Error") (JsonResult.parsed none))
      (by decide)⟩

/-- Counterexample to C4: with both login callbacks configured, a 500
response makes `init()` invoke neither login-succeeded nor login-required
(the error path returns before the check), so an `init()` call can invoke
neither notification. -/
theorem init_notifications_cex :
    (init (BkperAuthConfig.mk none (some CbSpec.normal) (some CbSpec.normal)
        none none none none)
      (FetchOutcome.response 500 ("Server Error") (JsonResult.parsed none))
      freshState).1.events = [] ∧
    (init (BkperAuthConfig.mk none (some CbSpec.normal) (some CbSpec.normal)
        none none none none)
      (FetchOutcome.response 500 ("Server Error") (JsonResult.parsed none))
      freshState).2 = Except.ok () :=
  ⟨rfl, rfl⟩

/-- C4 (amended): when the inner `refresh()` resolves normally and both
login callbacks are configured and non-throwing, `init()` invokes exactly
one of them — login-succeeded when the resulting token is truthy,
login-required when it is absent or empty — and resolves; when `refresh()`
rejects, neither is invoked (see the C3 theorem and the counterexample). -/
theorem init_notifications (cfg : BkperAuthConfig) (s : AuthState)
    (o : FetchOutcome) (hok : (refresh cfg o s).2 = Except.ok ())
    (hls : cfg.onLoginSuccess = some CbSpec.normal)
    (hlr : cfg.onLoginRequired = some CbSpec.normal) :
    (init cfg o s).1.events = (refresh cfg o s).1.events ++
      (if truthy (getAccessToken (refresh cfg o s).1) then
        [Event.loginSuccess]
      else [Event.loginRequired]) ∧
    (init cfg o s).2 = Except.ok () := by
  rcases hr : refresh cfg o s with ⟨s1, r1⟩
  rw [hr] at hok
  simp only at hok
  subst hok
  by_cases htr : truthy s1.accessToken
  · simp [init, hr, checkAccessToken, htr, hls, invokeCb, getAccessToken]
  · simp only [Bool.not_eq_true] at htr
    simp [init, hr, checkAccessToken, htr, hlr, invokeCb, getAccessToken]

/-- Witness for the amended C4 at a 200 response carrying "abc123". -/
theorem init_notifications_witness :
    ((refresh (BkperAuthConfig.mk none (some CbSpec.normal)
        (some CbSpec.normal) none none none none)
      (FetchOutcome.response 200 ("OK")
        (JsonResult.parsed (some ("abc123")))) freshState).2 =
      Except.ok ()) ∧
    ((BkperAuthConfig.mk none (some CbSpec.normal) (some CbSpec.normal)
        none none none none).onLoginSuccess = some CbSpec.normal) ∧
    ((BkperAuthConfig.mk none (some CbSpec.normal) (some CbSpec.normal)
        none none none none).onLoginRequired = some CbSpec.normal) ∧
    ((init (BkperAuthConfig.mk none (some CbSpec.normal)
        (some CbSpec.normal) none none none none)
      (FetchOutcome.response 200 ("OK")
        (JsonResult.parsed (some ("abc123")))) freshState).1.events =
      (refresh (BkperAuthConfig.mk none (some CbSpec.normal)
          (some CbSpec.normal) none none none none)
        (FetchOutcome.response 200 ("OK")
          (JsonResult.parsed (some ("abc123")))) freshState).1.events ++
        (if truthy (getAccessToken (refresh (BkperAuthConfig.mk none
            (some CbSpec.normal) (some CbSpec.normal) none none none none)
          (FetchOutcome.response 200 ("OK")
            (JsonResult.parsed (some ("abc123")))) freshState).1) then
          [Event.loginSuccess]
        else [Event.loginRequired]) ∧
    (init (BkperAuthConfig.mk none (some CbSpec.normal)
        (some CbSpec.normal) none none none none)
      (FetchOutcome.response 200 ("OK")
        (JsonResult.parsed (some ("abc123")))) freshState).2 =
      Except.ok ()) :=
  ⟨rfl, rfl, rfl,
    init_notifications (BkperAuthConfig.mk none (some CbSpec.normal)
        (some CbSpec.normal) none none none none) freshState
      (FetchOutcome.response 200 ("OK")
        (JsonResult.parsed (some ("abc123"))))
      rfl rfl rfl⟩

/-- Helper: `refresh()` writes the cookie flag exactly when the fetch
returned HTTP 200 with a parseable body, and never clears it. -/
theorem refresh_cookie (cfg : BkperAuthConfig) (o : FetchOutcome)
    (s : AuthState) :
    (refresh cfg o s).1.alreadyLoggedCookie =
      (s.alreadyLoggedCookie || (statusIs200 o && bodyParsed o)) := by
  cases o with
  | netError e =>
    simp [refresh, statusIs200, bodyParsed]
  | response st txt j =>
    by_cases h200 : st = 200
    · subst h200
      cases j with
      | parseError e =>
        simp [refresh, statusIs200, bodyParsed]
      | parsed tokOpt =>
        cases hc : cfg.onTokenRefresh with
        | none =>
          simp [refresh, statusIs200, bodyParsed, hc]
        | some cb =>
          cases tokOpt with
          | none =>
            simp [refresh, statusIs200, bodyParsed, hc]
          | some t =>
            by_cases ht : t = ""
            · subst ht
              simp [refresh, statusIs200, bodyParsed, hc]
            · have ht' : (t == "") = false := by simpa using ht
              cases cb with
              | normal =>
                simp [refresh, statusIs200, bodyParsed, hc, ht', invokeCb]
              | throws e =>
                simp [refresh, statusIs200, bodyParsed, hc, ht', invokeCb]
    · have h200' : (st == 200) = false := by simpa using h200
      by_cases h401 : st = 401
      · subst h401
        simp [refresh, statusIs200, bodyParsed, h200']
      · have h401' : (st == 401) = false := by simpa using h401
        simp [refresh, statusIs200, bodyParsed, h200', h401']

/-- Helper: `checkAccessToken()` leaves the cookie flag alone. -/
theorem checkAccessToken_cookie (cfg : BkperAuthConfig) (s : AuthState) :
    (checkAccessToken cfg s).1.alreadyLoggedCookie =
      s.alreadyLoggedCookie := by
  by_cases ht : truthy s.accessToken
  · cases hls : cfg.onLoginSuccess with
    | none => simp [checkAccessToken, ht, hls]
    | some cb => cases cb <;> simp [checkAccessToken, ht, hls, invokeCb]
  · simp only [Bool.not_eq_true] at ht
    cases hlr : cfg.onLoginRequired with
    | none => simp [checkAccessToken, ht, hlr]
    | some cb => cases cb <;> simp [checkAccessToken, ht, hlr, invokeCb]

/-- Helper: the `init()` error handler leaves the cookie flag alone. -/
theorem handleInitError_cookie (cfg : BkperAuthConfig) (e : String)
    (s : AuthState) :
    (handleInitError cfg e s).1.alreadyLoggedCookie =
      s.alreadyLoggedCookie := by
  cases hc : cfg.onError with
  | none => simp [handleInitError, hc]
  | some cb => cases cb <;> simp [handleInitError, hc, invokeCb]

/-- Helper: one operation sets the cookie flag exactly when it is a refresh
(direct or via init) reaching the 200 branch, and never clears it. -/
theorem step_cookie (cfg : BkperAuthConfig) (s : AuthState) (op : Op) :
    (step cfg s op).alreadyLoggedCookie =
      (s.alreadyLoggedCookie || sets200 op) := by
  cases op with
  | refreshOp o =>
    simp [step, sets200, refresh_cookie]
  | initOp o =>
    rcases hr : refresh cfg o s with ⟨s1, r1⟩
    have hrc : s1.alreadyLoggedCookie =
        (s.alreadyLoggedCookie || (statusIs200 o && bodyParsed o)) := by
      have := refresh_cookie cfg o s
      rw [hr] at this
      simpa using this
    cases r1 with
    | ok u =>
      rcases hck : checkAccessToken cfg s1 with ⟨s2, r2⟩
      have hckc : s2.alreadyLoggedCookie = s1.alreadyLoggedCookie := by
        have := checkAccessToken_cookie cfg s1
        rw [hck] at this
        simpa using this
      cases r2 with
      | ok v =>
        simp [step, init, hr, hck, sets200, hckc, hrc]
      | error e =>
        simp [step, init, hr, hck, sets200, handleInitError_cookie, hckc,
          hrc]
    | error e =>
      simp [step, init, hr, sets200, handleInitError_cookie, hrc]
  | loginOp href =>
    simp [step, login, sets200]
  | logoutOp =>
    cases hc : cfg.onLogout with
    | none => simp [step, logout, sets200, hc]
    | some cb => cases cb <;> simp [step, logout, sets200, hc, invokeCb]

/-- Helper: over a sequence of operations, the session-hint flag is true
exactly when it started true or some operation was a refresh reaching the
HTTP 200 branch. -/
theorem run_cookie (cfg : BkperAuthConfig) (ops : List Op) (s : AuthState) :
    hasLoggedInBefore (run cfg s ops) =
      (hasLoggedInBefore s || ops.any sets200) := by
  induction ops generalizing s with
  | nil => simp [run, hasLoggedInBefore]
  | cons op ops ih =>
    simp only [run, List.any_cons]
    rw [ih]
    simp [hasLoggedInBefore, step_cookie, Bool.or_assoc]

/-- C5: with a non-throwing `onTokenRefresh`, over every sequence of client
operations `hasLoggedInBefore()` is true exactly when it started true or
some refresh (direct or inside `init()`) reached the HTTP 200 branch — so
it is false in a fresh session until the first such refresh, true
immediately after it, is never cleared by 401 responses, transport errors,
login or logout, and is written by no other operation; and reaching the
HTTP 200 branch coincides with `refresh()` resolving normally on a 200
response. -/
theorem session_hint_flag (cfg : BkperAuthConfig)
    (hsafe : cbSafeB cfg.onTokenRefresh = true) :
    (∀ (s : AuthState) (ops : List Op),
      hasLoggedInBefore (run cfg s ops) =
        (hasLoggedInBefore s || ops.any sets200)) ∧
    (∀ (s : AuthState) (o : FetchOutcome),
      sets200 (Op.refreshOp o) = true ↔
        ((refresh cfg o s).2 = Except.ok () ∧ statusIs200 o = true)) := by
  constructor
  · intro s ops
    exact run_cookie cfg ops s
  · intro s o
    cases o with
    | netError e =>
      simp [sets200, statusIs200, bodyParsed, refresh]
    | response st txt j =>
      by_cases h200 : st = 200
      · subst h200
        cases j with
        | parseError e =>
          simp [sets200, statusIs200, bodyParsed, refresh]
        | parsed tokOpt =>
          cases hc : cfg.onTokenRefresh with
          | none =>
            simp [sets200, statusIs200, bodyParsed, refresh, hc]
          | some cb =>
            cases cb with
            | normal =>
              cases tokOpt with
              | none =>
                simp [sets200, statusIs200, bodyParsed, refresh, hc]
              | some t =>
                by_cases ht : t = ""
                · subst ht
                  simp [sets200, statusIs200, bodyParsed, refresh, hc]
                · have ht' : (t == "") = false := by simpa using ht
                  simp [sets200, statusIs200, bodyParsed, refresh, hc, ht',
                    invokeCb]
            | throws e =>
              rw [hc] at hsafe
              simp [cbSafeB] at hsafe
      · have h200' : (st == 200) = false := by simpa using h200
        by_cases h401 : st = 401
        · subst h401
          simp [sets200, statusIs200, bodyParsed, refresh, h200']
        · have h401' : (st == 401) = false := by simpa using h401
          simp [sets200, statusIs200, bodyParsed, refresh, h200', h401']

/-- Witness for C5 at a configuration with a normal token callback. -/
theorem session_hint_flag_witness :
    (cbSafeB (BkperAuthConfig.mk none none none none (some CbSpec.normal)
        none none).onTokenRefresh = true) ∧
    ((∀ (s : AuthState) (ops : List Op),
      hasLoggedInBefore (run (BkperAuthConfig.mk none none none none
          (some CbSpec.normal) none none) s ops) =
        (hasLoggedInBefore s || ops.any sets200)) ∧
    (∀ (s : AuthState) (o : FetchOutcome),
      sets200 (Op.refreshOp o) = true ↔
        ((refresh (BkperAuthConfig.mk none none none none
            (some CbSpec.normal) none none) o s).2 = Except.ok () ∧
          statusIs200 o = true))) :=
  ⟨by decide,
    session_hint_flag (BkperAuthConfig.mk none none none none
        (some CbSpec.normal) none none) (by decide)⟩

/-- C6: `login()` navigates to the base URL plus "/auth/login" with a
`returnUrl` query parameter holding the URI-encoded current location,
followed by one additional ampersand-separated key=value pair per provider
entry with only the value URI-encoded; it resolves, leaves the access token
and cookie flag unchanged, and invokes no callback (navigation is the only
event). -/
theorem login_contract (cfg : BkperAuthConfig) (s : AuthState)
    (href : String) (ps : List (String × String))
    (hp : cfg.getAdditionalAuthParams = some ps) :
    (login cfg href s).2 = Except.ok () ∧
    getAccessToken (login cfg href s).1 = getAccessToken s ∧
    (login cfg href s).1.alreadyLoggedCookie = s.alreadyLoggedCookie ∧
    (login cfg href s).1.events = s.events ++
      [Event.navigate (baseUrlOf cfg ++ ("/auth/login") ++
        ("?returnUrl=") ++ encodeURIComponent href ++
        String.join (ps.map (fun p =>
          ("&") ++ p.1 ++ ("=") ++ encodeURIComponent p.2)))] := by
  simp [login, getLoginUrl, getAccessToken, hp, AUTH_LOGIN_PATH]

/-- Witness for C6 at a concrete location and a tenant parameter. -/
theorem login_contract_witness :
    ((BkperAuthConfig.mk none none none none none none
        (some [(("tenant"), ("acme"))])).getAdditionalAuthParams =
      some [(("tenant"), ("acme"))]) ∧
    ((login (BkperAuthConfig.mk none none none none none none
        (some [(("tenant"), ("acme"))])) ("http://localhost:3000/app")
        freshState).2 = Except.ok () ∧
    getAccessToken (login (BkperAuthConfig.mk none none none none none none
        (some [(("tenant"), ("acme"))])) ("http://localhost:3000/app")
        freshState).1 = getAccessToken freshState ∧
    (login (BkperAuthConfig.mk none none none none none none
        (some [(("tenant"), ("acme"))])) ("http://localhost:3000/app")
        freshState).1.alreadyLoggedCookie =
      freshState.alreadyLoggedCookie ∧
    (login (BkperAuthConfig.mk none none none none none none
        (some [(("tenant"), ("acme"))])) ("http://localhost:3000/app")
        freshState).1.events = freshState.events ++
      [Event.navigate (baseUrlOf (BkperAuthConfig.mk none none none none
          none none (some [(("tenant"), ("acme"))])) ++ ("/auth/login") ++
        ("?returnUrl=") ++
        encodeURIComponent ("http://localhost:3000/app") ++
        String.join ([(("tenant"), ("acme"))].map (fun p =>
          ("&") ++ p.1 ++ ("=") ++ encodeURIComponent p.2)))]) :=
  ⟨rfl,
    login_contract (BkperAuthConfig.mk none none none none none none
        (some [(("tenant"), ("acme"))])) freshState
      ("http://localhost:3000/app") [(("tenant"), ("acme"))] rfl⟩

/-- C7: `logout()` invokes the configured `onLogout` callback before the
navigation event, navigates to exactly the base URL plus "/auth/logout"
with no extra parameters even though a provider is configured, resolves,
and leaves the in-memory access token unchanged. -/
theorem logout_contract (cfg : BkperAuthConfig) (s : AuthState)
    (ps : List (String × String))
    (_hp : cfg.getAdditionalAuthParams = some ps)
    (hsafe : cbSafeB cfg.onLogout = true) :
    (logout cfg s).2 = Except.ok () ∧
    getAccessToken (logout cfg s).1 = getAccessToken s ∧
    (logout cfg s).1.events = s.events ++
      (match cfg.onLogout with
        | some _ => [Event.logoutCb]
        | none => []) ++
      [Event.navigate (baseUrlOf cfg ++ ("/auth/logout"))] := by
  cases hc : cfg.onLogout with
  | none =>
    simp [logout, getLogoutUrl, AUTH_LOGOUT_PATH, getAccessToken, hc]
  | some cb =>
    cases cb with
    | normal =>
      simp [logout, getLogoutUrl, AUTH_LOGOUT_PATH, getAccessToken, hc,
        invokeCb]
    | throws e =>
      rw [hc] at hsafe
      simp [cbSafeB] at hsafe

/-- Witness for C7 with a configured logout callback and tenant provider. -/
theorem logout_contract_witness :
    ((BkperAuthConfig.mk none none none (some CbSpec.normal) none none
        (some [(("tenant"), ("acme"))])).getAdditionalAuthParams =
      some [(("tenant"), ("acme"))]) ∧
    (cbSafeB (BkperAuthConfig.mk none none none (some CbSpec.normal) none
        none (some [(("tenant"), ("acme"))])).onLogout = true) ∧
    ((logout (BkperAuthConfig.mk none none none (some CbSpec.normal) none
        none (some [(("tenant"), ("acme"))])) freshState).2 =
      Except.ok () ∧
    getAccessToken (logout (BkperAuthConfig.mk none none none
        (some CbSpec.normal) none none (some [(("tenant"), ("acme"))]))
        freshState).1 = getAccessToken freshState ∧
    (logout (BkperAuthConfig.mk none none none (some CbSpec.normal) none
        none (some [(("tenant"), ("acme"))])) freshState).1.events =
      freshState.events ++
        (match (BkperAuthConfig.mk none none none (some CbSpec.normal) none
            none (some [(("tenant"), ("acme"))])).onLogout with
          | some _ => [Event.logoutCb]
          | none => []) ++
        [Event.navigate (baseUrlOf (BkperAuthConfig.mk none none none
            (some CbSpec.normal) none none
            (some [(("tenant"), ("acme"))])) ++ ("/auth/logout"))]) :=
  ⟨rfl, by decide,
    logout_contract (BkperAuthConfig.mk none none none (some CbSpec.normal)
        none none (some [(("tenant"), ("acme"))])) freshState
      [(("tenant"), ("acme"))] rfl (by decide)⟩

/-- C8: with a provider configured, the refresh URL is the base URL plus
"/auth/refresh" with the provider output serialized as a query string and
the question mark omitted when that serialization is empty; a provider
yielding the empty mapping gives the bare refresh URL; and the provider
output tenant=acme suffixes the refresh URL with "?tenant=acme" while the
login URL then ends with "&tenant=acme". -/
theorem refresh_url_contract (cfg cfgE cfgT : BkperAuthConfig)
    (ps : List (String × String)) (href : String)
    (hp : cfg.getAdditionalAuthParams = some ps)
    (hpE : cfgE.getAdditionalAuthParams = some [])
    (hpT : cfgT.getAdditionalAuthParams = some [(("tenant"), ("acme"))]) :
    getRefreshUrl cfg =
      (if searchParamsToString ps == "" then
        baseUrlOf cfg ++ ("/auth/refresh")
      else baseUrlOf cfg ++ ("/auth/refresh") ++ ("?") ++
        searchParamsToString ps) ∧
    getRefreshUrl cfgE = baseUrlOf cfgE ++ ("/auth/refresh") ∧
    getRefreshUrl cfgT = baseUrlOf cfgT ++ ("/auth/refresh?tenant=acme") ∧
    getLoginUrl cfgT href = baseUrlOf cfgT ++ ("/auth/login") ++
      ("?returnUrl=") ++ encodeURIComponent href ++ ("&tenant=acme") := by
  refine ⟨?_, ?_, ?_, ?_⟩
  · simp only [getRefreshUrl, hp, AUTH_REFRESH_PATH]
  · have h0 : searchParamsToString [] = "" := rfl
    simp [getRefreshUrl, hpE, AUTH_REFRESH_PATH, h0]
  · simp only [getRefreshUrl, hpT, AUTH_REFRESH_PATH]
    rw [String.append_assoc, String.append_assoc]
    rfl
  · simp only [getLoginUrl, hpT, AUTH_LOGIN_PATH]
    rfl

/-- Witness for C8 at concrete configurations. -/
theorem refresh_url_contract_witness :
    ((BkperAuthConfig.mk none none none none none none
        (some [(("tenant"), ("acme"))])).getAdditionalAuthParams =
      some [(("tenant"), ("acme"))]) ∧
    ((BkperAuthConfig.mk none none none none none none
        (some [])).getAdditionalAuthParams = some []) ∧
    (getRefreshUrl (BkperAuthConfig.mk none none none none none none
        (some [(("tenant"), ("acme"))])) =
      (if searchParamsToString [(("tenant"), ("acme"))] == "" then
        baseUrlOf (BkperAuthConfig.mk none none none none none none
          (some [(("tenant"), ("acme"))])) ++ ("/auth/refresh")
      else baseUrlOf (BkperAuthConfig.mk none none none none none none
          (some [(("tenant"), ("acme"))])) ++ ("/auth/refresh") ++ ("?") ++
        searchParamsToString [(("tenant"), ("acme"))]) ∧
    getRefreshUrl (BkperAuthConfig.mk none none none none none none
        (some [])) = baseUrlOf (BkperAuthConfig.mk none none none none none
        none (some [])) ++ ("/auth/refresh") ∧
    getRefreshUrl (BkperAuthConfig.mk none none none none none none
        (some [(("tenant"), ("acme"))])) =
      baseUrlOf (BkperAuthConfig.mk none none none none none none
        (some [(("tenant"), ("acme"))])) ++ ("/auth/refresh?tenant=acme") ∧
    getLoginUrl (BkperAuthConfig.mk none none none none none none
        (some [(("tenant"), ("acme"))])) ("http://localhost:3000/app") =
      baseUrlOf (BkperAuthConfig.mk none none none none none none
        (some [(("tenant"), ("acme"))])) ++ ("/auth/login") ++
      ("?returnUrl=") ++
      encodeURIComponent ("http://localhost:3000/app") ++
      ("&tenant=acme")) :=
  ⟨rfl, rfl,
    refresh_url_contract (BkperAuthConfig.mk none none none none none none
        (some [(("tenant"), ("acme"))]))
      (BkperAuthConfig.mk none none none none none none (some []))
      (BkperAuthConfig.mk none none none none none none
        (some [(("tenant"), ("acme"))]))
      [(("tenant"), ("acme"))] ("http://localhost:3000/app")
      rfl rfl rfl⟩

/-- Counterexample to C9: with `onLoginSuccess` configured to throw and no
error callback, a successful refresh inside `init()` runs the throwing
login-succeeded callback, yet `init()` still resolves normally — the
exception does not propagate out of `init()`, because `checkAccessToken()`
sits inside the same try block as `refresh()`. -/
theorem callback_throw_cex :
    (init (BkperAuthConfig.mk none (some (CbSpec.throws ("boom"))) none none
        none none none)
      (FetchOutcome.response 200 ("OK")
        (JsonResult.parsed (some ("abc123")))) freshState).2 =
      Except.ok () ∧
    Event.loginSuccess ∈ (init (BkperAuthConfig.mk none
        (some (CbSpec.throws ("boom"))) none none none none none)
      (FetchOutcome.response 200 ("OK")
        (JsonResult.parsed (some ("abc123")))) freshState).1.events :=
  ⟨rfl, by decide⟩

/-- C9 (amended): a throwing callback propagates to the caller of the
triggering method for `logout()` (`onLogout`), for `refresh()`
(`onTokenRefresh`), and for the `onError` callback invoked inside
`init()`; but the whole body of `init()` is guarded, so an exception
thrown by the login-succeeded callback during `init()` is caught there
and `init()` still resolves. -/
theorem callback_throw_contract (cfgA cfgB cfgC cfgD : BkperAuthConfig)
    (s : AuthState) (e e2 txt tok : String) (o : FetchOutcome)
    (hA : cfgA.onLogout = some (CbSpec.throws e))
    (hB : cfgB.onLoginSuccess = some (CbSpec.throws e))
    (hBerr : cbSafeB cfgB.onError = true)
    (hBtr : cbSafeB cfgB.onTokenRefresh = true)
    (hC : cfgC.onTokenRefresh = some (CbSpec.throws e))
    (htok : tok ≠ "")
    (hD : cfgD.onError = some (CbSpec.throws e))
    (hDrej : (refresh cfgD o s).2 = Except.error e2) :
    (logout cfgA s).2 = Except.error e ∧
    (refresh cfgC (FetchOutcome.response 200 txt
        (JsonResult.parsed (some tok))) s).2 = Except.error e ∧
    (init cfgB (FetchOutcome.response 200 txt
        (JsonResult.parsed (some tok))) s).2 = Except.ok () ∧
    (init cfgD o s).2 = Except.error e := by
  have htok' : (tok == "") = false := by simpa using htok
  refine ⟨?_, ?_, ?_, ?_⟩
  · simp [logout, hA, invokeCb]
  · simp [refresh, hC, htok', invokeCb]
  · cases hcB : cfgB.onTokenRefresh with
    | none =>
      cases hcE : cfgB.onError with
      | none =>
        simp [init, refresh, hcB, checkAccessToken, truthy, htok', hB,
          invokeCb, handleInitError, hcE]
      | some cbE =>
        cases cbE with
        | normal =>
          simp [init, refresh, hcB, checkAccessToken, truthy, htok', hB,
            invokeCb, handleInitError, hcE]
        | throws e3 =>
          rw [hcE] at hBerr
          simp [cbSafeB] at hBerr
    | some cbT =>
      cases cbT with
      | normal =>
        cases hcE : cfgB.onError with
        | none =>
          simp [init, refresh, hcB, htok', checkAccessToken, truthy, hB,
            invokeCb, handleInitError, hcE]
        | some cbE =>
          cases cbE with
          | normal =>
            simp [init, refresh, hcB, htok', checkAccessToken, truthy, hB,
              invokeCb, handleInitError, hcE]
          | throws e3 =>
            rw [hcE] at hBerr
            simp [cbSafeB] at hBerr
      | throws e3 =>
        rw [hcB] at hBtr
        simp [cbSafeB] at hBtr
  · rcases hres : refresh cfgD o s with ⟨s1, r1⟩
    rw [hres] at hDrej
    simp only at hDrej
    subst hDrej
    simp [init, hres, handleInitError, hD, invokeCb]

/-- Witness for the amended C9 at concrete throwing configurations. -/
theorem callback_throw_contract_witness :
    ((BkperAuthConfig.mk none none none (some (CbSpec.throws ("boom")))
        none none none).onLogout = some (CbSpec.throws ("boom"))) ∧
    ((BkperAuthConfig.mk none (some (CbSpec.throws ("boom"))) none none
        none none none).onLoginSuccess = some (CbSpec.throws ("boom"))) ∧
    (cbSafeB (BkperAuthConfig.mk none (some (CbSpec.throws ("boom"))) none
        none none none none).onError = true) ∧
    (cbSafeB (BkperAuthConfig.mk none (some (CbSpec.throws ("boom"))) none
        none none none none).onTokenRefresh = true) ∧
    ((BkperAuthConfig.mk none none none none
        (some (CbSpec.throws ("boom"))) none none).onTokenRefresh =
      some (CbSpec.throws ("boom"))) ∧
    ("abc123" ≠ "") ∧
    ((BkperAuthConfig.mk none none none none none
        (some (CbSpec.throws ("boom"))) none).onError =
      some (CbSpec.throws ("boom"))) ∧
    ((refresh (BkperAuthConfig.mk none none none none none
        (some (CbSpec.throws ("boom"))) none)
      (FetchOutcome.response 500 ("Server Error")
        (JsonResult.parsed none)) freshState).2 =
      Except.error ("Server Error")) ∧
    ((logout (BkperAuthConfig.mk none none none
        (some (CbSpec.throws ("boom"))) none none none) freshState).2 =
      Except.error ("boom") ∧
    (refresh (BkperAuthConfig.mk none none none none
        (some (CbSpec.throws ("boom"))) none none)
      (FetchOutcome.response 200 ("OK")
        (JsonResult.parsed (some ("abc123")))) freshState).2 =
      Except.error ("boom") ∧
    (init (BkperAuthConfig.mk none (some (CbSpec.throws ("boom"))) none
        none none none none)
      (FetchOutcome.response 200 ("OK")
        (JsonResult.parsed (some ("abc123")))) freshState).2 =
      Except.ok () ∧
    (init (BkperAuthConfig.mk none none none none none
        (some (CbSpec.throws ("boom"))) none)
      (FetchOutcome.response 500 ("Server Error")
        (JsonResult.parsed none)) freshState).2 =
      Except.error ("boom")) :=
  ⟨rfl, rfl, by decide, by decide, rfl, by decide, rfl, rfl,
    callback_throw_contract
      (BkperAuthConfig.mk none none none (some (CbSpec.throws ("boom")))
        none none none)
      (BkperAuthConfig.mk none (some (CbSpec.throws ("boom"))) none none
        none none none)
      (BkperAuthConfig.mk none none none none
        (some (CbSpec.throws ("boom"))) none none)
      (BkperAuthConfig.mk none none none none none
        (some (CbSpec.throws ("boom"))) none)
      freshState ("boom") ("Server Error") ("OK") ("abc123")
      (FetchOutcome.response 500 ("Server Error") (JsonResult.parsed none))
      rfl rfl (by decide) (by decide) rfl (by decide) rfl rfl⟩

/-- Counterexample to C10: on HTTP 200 with body carrying an empty
`accessToken`, `getAccessToken()` afterwards returns the empty string — a
present value, not absent as the claim states. -/
theorem refresh_empty_token_cex :
    getAccessToken (refresh (BkperAuthConfig.mk none none none none
        (some CbSpec.normal) none none)
      (FetchOutcome.response 200 ("OK") (JsonResult.parsed (some (""))))
      freshState).1 = some ("") ∧
    some ("") ≠ (none : Option String) :=
  ⟨rfl, by decide⟩

/-- C10 (amended): on HTTP 200 with a JSON body whose `accessToken` is
missing or the empty string, `refresh()` still resolves normally and still
sets the session-hint flag, `onTokenRefresh` is not invoked, and
`getAccessToken()` afterwards returns exactly the body's field — absent
when the field is missing, the (falsy) empty string when it is empty — so
`hasLoggedInBefore()` becomes true while no usable token was stored. -/
theorem refresh_200_no_usable_token (cfg : BkperAuthConfig) (s : AuthState)
    (txt : String) (tokOpt : Option String)
    (h : tokOpt = none ∨ tokOpt = some "") :
    (refresh cfg (FetchOutcome.response 200 txt (JsonResult.parsed tokOpt))
        s).2 = Except.ok () ∧
    hasLoggedInBefore (refresh cfg (FetchOutcome.response 200 txt
        (JsonResult.parsed tokOpt)) s).1 = true ∧
    getAccessToken (refresh cfg (FetchOutcome.response 200 txt
        (JsonResult.parsed tokOpt)) s).1 = tokOpt ∧
    (refresh cfg (FetchOutcome.response 200 txt (JsonResult.parsed tokOpt))
        s).1.events = s.events := by
  rcases h with rfl | rfl
  · cases hc : cfg.onTokenRefresh <;>
      simp [refresh, hc, getAccessToken, hasLoggedInBefore]
  · cases hc : cfg.onTokenRefresh <;>
      simp [refresh, hc, getAccessToken, hasLoggedInBefore]

/-- Witness for the amended C10 with an empty token and a configured
token callback. -/
theorem refresh_200_no_usable_token_witness :
    ((some ("") : Option String) = none ∨
      (some ("") : Option String) = some ("")) ∧
    ((refresh (BkperAuthConfig.mk none none none none
        (some CbSpec.normal) none none)
      (FetchOutcome.response 200 ("OK") (JsonResult.parsed (some (""))))
        freshState).2 = Except.ok () ∧
    hasLoggedInBefore (refresh (BkperAuthConfig.mk none none none none
        (some CbSpec.normal) none none)
      (FetchOutcome.response 200 ("OK") (JsonResult.parsed (some (""))))
        freshState).1 = true ∧
    getAccessToken (refresh (BkperAuthConfig.mk none none none none
        (some CbSpec.normal) none none)
      (FetchOutcome.response 200 ("OK") (JsonResult.parsed (some (""))))
        freshState).1 = some ("") ∧
    (refresh (BkperAuthConfig.mk none none none none
        (some CbSpec.normal) none none)
      (FetchOutcome.response 200 ("OK") (JsonResult.parsed (some (""))))
        freshState).1.events = freshState.events) :=
  ⟨Or.inr rfl,
    refresh_200_no_usable_token (BkperAuthConfig.mk none none none none
        (some CbSpec.normal) none none) freshState ("OK") (some (""))
      (Or.inr rfl)⟩
